import Mathlib

/-!
Verification development for the chromex native binding layer
(src/native/chromex_native/src/lib.rs): a synchronous bridge that decodes
text-encoded parameters, builds typed engine requests, and drives the
asynchronous chroma engine behind an exclusive lock.

Embedding conventions:
* Text-encoded JSON parameters are represented by their serde parse result
  (`JsonText`): every host string either fails to parse, is empty, or parses
  to exactly one `Json` value.
* f32 values crossing the bridge are never computed on by this layer, only
  counted; they are carried as raw 32-bit patterns (`F32 := Nat`).
* The engine (`chroma_frontend::Frontend`, an external collaborator) is an
  oracle parameter: a function from the typed request to a result or an
  opaque error string.
* Each NIF body has the uniform shape: lock the resource mutex, decode and
  build (pure), lock the frontend mutex, block on the engine call.  This is
  captured by `runOp`, which also records whether the engine was invoked.
* A poisoned mutex makes `lock().unwrap()` panic; the host NIF runtime
  propagates the panic as a raised error.  This is modelled as the
  `Err.poisonFail` outcome.
-/

namespace Chromex

/-- A JSON value, as produced by serde from a well-formed JSON document.
Numeric literals are carried structurally (this layer never computes on
them). -/
inductive Json where
  | null : Json
  | bool (b : Bool) : Json
  | num (n : Int) : Json
  | str (s : String) : Json
  | arr (elems : List Json) : Json
  | obj (fields : List (String × Json)) : Json

/-- A text-encoded parameter as seen through serde: the host string either
is empty, fails to parse as JSON, or parses to exactly one `Json` value. -/
inductive JsonText where
  | empty : JsonText
  | malformed : JsonText
  | val (j : Json) : JsonText

/-- Scalar metadata values (string, integer, float, boolean); the float
payload is its bit pattern, never computed on here. -/
inductive Scalar where
  | str (s : String) : Scalar
  | num (n : Int) : Scalar
  | bool (b : Bool) : Scalar
deriving DecidableEq, Repr

/-- Full-replacement metadata: an ordered mapping from keys to scalars. -/
abbrev Metadata := List (String × Scalar)

/-- Update metadata values: a scalar, or null (field deletion). -/
inductive UpdScalar where
  | val (s : Scalar) : UpdScalar
  | nullv : UpdScalar
deriving DecidableEq, Repr

/-- Partial/update metadata, where a null value signals field deletion. -/
abbrev UpdateMetadata := List (String × UpdScalar)

/-- The error channel of the binding layer, mirroring the message classes
produced in lib.rs (UUID error, Metadata error, Config error, Where error,
Request error, engine failure) plus the panic raised by unwrapping a
poisoned mutex. -/
inductive Err where
  | poisonFail : Err
  | uuidErr : Err
  | metadataErr : Err
  | configErr : Err
  | whereErr : Err
  | validation (msg : String) : Err
  | engine (msg : String) : Err
deriving DecidableEq, Repr

/-- Whether an error is a request-validation error (the "Request error"
class of lib.rs, spec: ValidationError). -/
def Err.isValidation : Err → Bool
  | .validation _ => true
  | _ => false

/-- Whether a binding-layer result is a success. -/
def succeeded {α : Type} : Except Err α → Bool
  | .ok _ => true
  | .error _ => false

/-- 32-bit float bit patterns; opaque to the binding layer. -/
abbrev F32 := Nat

/-- Rust `as i32` truncating cast from an unsigned length. -/
def toI32 (n : Nat) : Int :=
  if n % 2 ^ 32 < 2 ^ 31 then (n % 2 ^ 32 : Int) else (n % 2 ^ 32 : Int) - 2 ^ 32

/-- Hex digit value, as accepted by the canonical UUID text form. -/
def hexVal (c : Char) : Option Nat :=
  if '0' ≤ c ∧ c ≤ '9' then some (c.toNat - '0'.toNat)
  else if 'a' ≤ c ∧ c ≤ 'f' then some (c.toNat - 'a'.toNat + 10)
  else if 'A' ≤ c ∧ c ≤ 'F' then some (c.toNat - 'A'.toNat + 10)
  else none

/-- Positions of the four hyphens in the canonical UUID text form
(8-4-4-4-12 hex groups). -/
def isDashPos (i : Nat) : Bool := i = 8 || i = 13 || i = 18 || i = 23

/-- Scan of the canonical UUID text form: 36 characters, hyphens exactly
at the dash positions, hex digits elsewhere, accumulating the 128-bit
value of the 32 hex digits. -/
def uuidScan : List Char → Nat → Nat → Option Nat
  | [], i, acc => if i = 36 then some acc else none
  | c :: rest, i, acc =>
    if isDashPos i then
      if c = '-' then uuidScan rest (i + 1) acc else none
    else
      match hexVal c with
      | some hv => uuidScan rest (i + 1) (acc * 16 + hv)
      | none => none

/-- Modelled from the spec: `Uuid::parse_str` (external `uuid` crate).
Spec §3: a collection id is "parsed from a canonical 128-bit UUID text
form"; the canonical form is five hyphen-separated hex groups of lengths
8-4-4-4-12.  Returns the 128-bit value, or `none` on any malformation. -/
def uuidParse (s : String) : Option Nat :=
  uuidScan s.data 0 0

/-- A JSON leaf as a metadata scalar, if it is one. -/
def scalarOfJson : Json → Option Scalar
  | .str s => some (.str s)
  | .num n => some (.num n)
  | .bool b => some (.bool b)
  | _ => none

/-- Modelled from the spec: metadata decode (§4.3, external `chroma_types`
deserializer): a JSON object whose values are all scalars; any non-scalar
leaf fails. -/
def decodeMetadataFields : List (String × Json) → Except Err Metadata
  | [] => .ok []
  | (k, v) :: rest =>
    match scalarOfJson v with
    | some s => (decodeMetadataFields rest).map (fun m => (k, s) :: m)
    | none => .error .metadataErr

/-- Modelled from the spec: `ChromaBindings::parse_metadata` decodes JSON
text to full Metadata; fails with a metadata error on invalid JSON or a
non-object or non-scalar leaf (§4.3 MalformedMetadata). -/
def parse_metadata : JsonText → Except Err Metadata
  | .val (.obj fields) => decodeMetadataFields fields
  | _ => .error .metadataErr

/-- A JSON leaf as an update-metadata value (scalar or null). -/
def updScalarOfJson : Json → Option UpdScalar
  | .null => some .nullv
  | j => (scalarOfJson j).map .val

/-- Modelled from the spec: update-metadata field decode, where a null
value signals field deletion (§3 Metadata). -/
def decodeUpdateMetadataFields : List (String × Json) → Except Err UpdateMetadata
  | [] => .ok []
  | (k, v) :: rest =>
    match updScalarOfJson v with
    | some s => (decodeUpdateMetadataFields rest).map (fun m => (k, s) :: m)
    | none => .error .metadataErr

/-- Modelled from the spec: `ChromaBindings::parse_update_metadata` decodes
JSON text to partial/update Metadata (§4.3). -/
def parse_update_metadata : JsonText → Except Err UpdateMetadata
  | .val (.obj fields) => decodeUpdateMetadataFields fields
  | _ => .error .metadataErr

/-- Comparison operators of the filter grammar. -/
inductive CmpOp where
  | eq | ne | gt | gte | lt | lte | isIn | notIn
deriving DecidableEq, Repr

/-- Recognized comparison operator keys of the filter grammar. -/
def cmpOpOf : String → Option CmpOp
  | "$eq" => some .eq
  | "$ne" => some .ne
  | "$gt" => some .gt
  | "$gte" => some .gte
  | "$lt" => some .lt
  | "$lte" => some .lte
  | "$in" => some .isIn
  | "$nin" => some .notIn
  | _ => none

/-- A decoded filter expression: field comparisons combined by logical
operators (spec §3). -/
inductive Where where
  | cmp (field : String) (op : CmpOp) (value : Json) : Where
  | conj (children : List Where) : Where
  | disj (children : List Where) : Where

mutual

/-- Modelled from the spec: the filter decoder (external `chroma_types`
`RawWhereFields::parse`).  Spec §3/§4.3: a JSON object grammar of field
comparisons combined by logical operators; an unrecognized operator or any
other malformation fails (`none`, surfaced as MalformedFilter). -/
def decodeWhere : Json → Option Where
  | .obj [(k, v)] =>
    if k = "$and" then
      match v with
      | .arr xs => (decodeWhereList xs).map .conj
      | _ => none
    else if k = "$or" then
      match v with
      | .arr xs => (decodeWhereList xs).map .disj
      | _ => none
    else
      match v with
      | .obj [(opk, opv)] =>
        match cmpOpOf opk with
        | some op => some (.cmp k op opv)
        | none => none
      | .obj _ => none
      | .arr _ => none
      | other => some (.cmp k .eq other)
  | _ => none

/-- Decode each element of a `$and`/`$or` operand list. -/
def decodeWhereList : List Json → Option (List Where)
  | [] => some []
  | j :: rest =>
    (decodeWhere j).bind fun w => (decodeWhereList rest).map fun ws => w :: ws

end

/-- Modelled from the spec: `ChromaBindings::parse_where`
(`RawWhereFields::from_json_str` + `parse`, external `chroma_types`).
Spec §4.3: empty input yields "no filter" (not an error); malformed JSON or
an unrecognized operator fails with MalformedFilter. -/
def parse_where : JsonText → Except Err (Option Where)
  | .empty => .ok none
  | .malformed => .error .whereErr
  | .val j =>
    match decodeWhere j with
    | some w => .ok (some w)
    | none => .error .whereErr

/-- The state of one engine handle as seen by the binding layer:
the `ChromaBindingsResource.inner` mutex and `ChromaBindings.frontend`
mutex (each may have been poisoned by a prior panic in a held critical
section), plus the construction-time configuration of `ChromaBindings::new`
(the runtime-bridge and engine internals are the oracle's business). -/
structure Handle where
  innerPoisoned : Bool
  frontendPoisoned : Bool
  allowReset : Bool
  persistPath : Option String

/-- The uniform body shape of every NIF in lib.rs: lock the resource mutex
(`lock().unwrap()` panics on poison), run the pure decode/build phase
(abort on its error), lock the frontend mutex, and block on the engine
call.  The second component records whether the engine was invoked. -/
def runOp {ρ α : Type} (h : Handle) (build : Except Err ρ)
    (engine : ρ → Except String α) : Except Err α × Bool :=
  if h.innerPoisoned then (.error .poisonFail, false)
  else
    match build with
    | .error e => (.error e, false)
    | .ok req =>
      if h.frontendPoisoned then (.error .poisonFail, false)
      else
        match engine req with
        | .ok v => (.ok v, true)
        | .error msg => (.error (.engine msg), true)

/-- Whether a provided optional parallel array has the required length
(an absent array imposes no constraint). -/
def optLenMatches {α : Type} : Option (List α) → Nat → Bool
  | none, _ => true
  | some l, n => l.length = n

/-- Whether every embedding in a batch has the same dimensionality. -/
def uniformDim (embeddings : List (List F32)) : Bool :=
  match embeddings with
  | [] => true
  | e :: rest => rest.all fun x => x.length = e.length

/-- Result-field selectors decoded from include tokens. -/
inductive Include where
  | document | embedding | metadata | distance | uri
deriving DecidableEq, Repr

/-- The include-token decoding of `query`/`get` in lib.rs: a sequence of
membership tests, each pushing its selector; tokens outside the five
recognized ones contribute nothing. -/
def buildInclude (tokens : List String) : List Include :=
  (if tokens.contains "documents" then [Include.document] else []) ++
  (if tokens.contains "embeddings" then [Include.embedding] else []) ++
  (if tokens.contains "metadatas" then [Include.metadata] else []) ++
  (if tokens.contains "distances" then [Include.distance] else []) ++
  (if tokens.contains "uris" then [Include.uri] else [])

/-- The five include tokens recognized by lib.rs. -/
def recognizedToken (t : String) : Bool :=
  t = "documents" || t = "embeddings" || t = "metadatas" || t = "distances" || t = "uris"

/-- Typed request of `frontend.add`. -/
structure AddRequest where
  tenant : String
  database : String
  collectionId : Nat
  ids : List String
  embeddings : List (List F32)
  documents : Option (List (Option String))
  uris : Option (List (Option String))
  metadatas : Option (List (Option Metadata))
deriving DecidableEq, Repr

/-- Typed request of `frontend.query`. -/
structure QueryRequest where
  tenant : String
  database : String
  collectionId : Nat
  ids : Option (List String)
  whereClause : Option Where
  embeddings : List (List F32)
  nResults : Nat
  includeList : List Include

/-- Typed request of `frontend.get`. -/
structure GetRequest where
  tenant : String
  database : String
  collectionId : Nat
  ids : Option (List String)
  whereClause : Option Where
  limit : Option Nat
  offset : Nat
  includeList : List Include

/-- Typed request of `frontend.update`. -/
structure UpdateRequest where
  tenant : String
  database : String
  collectionId : Nat
  ids : List String
  embeddings : Option (List (Option (List F32)))
  documents : Option (List (Option String))
  uris : Option (List (Option String))
  metadatas : Option (List (Option UpdateMetadata))

/-- Typed request of `frontend.upsert`. -/
structure UpsertRequest where
  tenant : String
  database : String
  collectionId : Nat
  ids : List String
  embeddings : List (List F32)
  documents : Option (List (Option String))
  uris : Option (List (Option String))
  metadatas : Option (List (Option UpdateMetadata))

/-- Typed request of `frontend.delete`. -/
structure DeleteRequest where
  tenant : String
  database : String
  collectionId : Nat
  ids : Option (List String)
  whereClause : Option Where

/-- Typed request of `frontend.count`. -/
structure CountRequest where
  tenant : String
  database : String
  collectionId : Nat
deriving DecidableEq, Repr

/-- Typed request of `frontend.list_collections`. -/
structure ListCollectionsRequest where
  tenant : String
  database : String
  limit : Option Nat
  offset : Nat
deriving DecidableEq, Repr

/-- Typed request of `frontend.create_collection`.  The collection
configuration is carried as its decoded JSON value (its internal structure
is the engine's business). -/
structure CreateCollectionRequest where
  tenant : String
  database : String
  name : String
  metadata : Option Metadata
  configuration : Option Json
  getOrCreate : Bool

/-- Typed request of `frontend.update_collection`. -/
structure UpdateCollectionRequest where
  collectionId : Nat
  newName : Option String
  newMetadata : Option UpdateMetadata

/-- Modelled from the spec: `AddCollectionRecordsRequest::try_new`
(external `chroma_types` crate).  Spec §4.4: for record-add, `ids`,
`embeddings`, and any provided optional arrays must have equal length and
every embedding must share one dimensionality; a violation fails with a
`ValidationError` naming the violated constraint. -/
def addTryNew (tenant database : String) (cid : Nat) (ids : List String)
    (embeddings : List (List F32)) (documents uris : Option (List (Option String)))
    (metadatas : Option (List (Option Metadata))) : Except Err AddRequest :=
  if embeddings.length ≠ ids.length then
    .error (.validation "ids and embeddings must have equal length")
  else if ¬ optLenMatches documents ids.length then
    .error (.validation "documents must have the same length as ids")
  else if ¬ optLenMatches uris ids.length then
    .error (.validation "uris must have the same length as ids")
  else if ¬ optLenMatches metadatas ids.length then
    .error (.validation "metadatas must have the same length as ids")
  else if ¬ uniformDim embeddings then
    .error (.validation "embeddings must share one dimensionality")
  else
    .ok ⟨tenant, database, cid, ids, embeddings, documents, uris, metadatas⟩

/-- Modelled from the spec: `QueryRequest::try_new` (external
`chroma_types`).  Spec §4.4: for query, the requested result count must be
positive. -/
def queryTryNew (tenant database : String) (cid : Nat) (w : Option Where)
    (embeddings : List (List F32)) (nResults : Nat) (inc : List Include) :
    Except Err QueryRequest :=
  if nResults = 0 then .error (.validation "n_results must be positive")
  else .ok ⟨tenant, database, cid, none, w, embeddings, nResults, inc⟩

/-- Modelled from the spec: `GetRequest::try_new` (external
`chroma_types`).  Spec §4.4: for get-by-id, the `ids` list, if given, must
be non-empty; omitted criteria mean "unrestricted". -/
def getTryNew (tenant database : String) (cid : Nat) (ids : Option (List String))
    (w : Option Where) (limit : Option Nat) (offset : Nat) (inc : List Include) :
    Except Err GetRequest :=
  if ids = some [] then .error (.validation "ids, if given, must be non-empty")
  else .ok ⟨tenant, database, cid, ids, w, limit, offset, inc⟩

/-- Modelled from the spec: `UpdateCollectionRecordsRequest::try_new`
(external `chroma_types`).  Spec §4.4: any provided optional arrays must
have length equal to `ids.len()`. -/
def updateTryNew (tenant database : String) (cid : Nat) (ids : List String)
    (embeddings : Option (List (Option (List F32))))
    (documents uris : Option (List (Option String)))
    (metadatas : Option (List (Option UpdateMetadata))) : Except Err UpdateRequest :=
  if ¬ optLenMatches embeddings ids.length then
    .error (.validation "embeddings must have the same length as ids")
  else if ¬ optLenMatches documents ids.length then
    .error (.validation "documents must have the same length as ids")
  else if ¬ optLenMatches uris ids.length then
    .error (.validation "uris must have the same length as ids")
  else if ¬ optLenMatches metadatas ids.length then
    .error (.validation "metadatas must have the same length as ids")
  else
    .ok ⟨tenant, database, cid, ids, embeddings, documents, uris, metadatas⟩

/-- Modelled from the spec: `UpsertCollectionRecordsRequest::try_new`
(external `chroma_types`).  Spec §4.4: equal lengths and one embedding
dimensionality, as for record-add. -/
def upsertTryNew (tenant database : String) (cid : Nat) (ids : List String)
    (embeddings : List (List F32)) (documents uris : Option (List (Option String)))
    (metadatas : Option (List (Option UpdateMetadata))) : Except Err UpsertRequest :=
  if embeddings.length ≠ ids.length then
    .error (.validation "ids and embeddings must have equal length")
  else if ¬ optLenMatches documents ids.length then
    .error (.validation "documents must have the same length as ids")
  else if ¬ optLenMatches uris ids.length then
    .error (.validation "uris must have the same length as ids")
  else if ¬ optLenMatches metadatas ids.length then
    .error (.validation "metadatas must have the same length as ids")
  else if ¬ uniformDim embeddings then
    .error (.validation "embeddings must share one dimensionality")
  else
    .ok ⟨tenant, database, cid, ids, embeddings, documents, uris, metadatas⟩

/-- Modelled from the spec: `DeleteCollectionRecordsRequest::try_new`
(external `chroma_types`).  Spec §4.4: omitted selection criteria (no ids,
no filter) mean "unrestricted", so every decoded combination forms a
request. -/
def deleteTryNew (tenant database : String) (cid : Nat) (ids : Option (List String))
    (w : Option Where) : Except Err DeleteRequest :=
  .ok ⟨tenant, database, cid, ids, w⟩

/-- Modelled from the spec: `CountRequest::try_new` (external
`chroma_types`); no structural invariant beyond the already-parsed id. -/
def countTryNew (tenant database : String) (cid : Nat) : Except Err CountRequest :=
  .ok ⟨tenant, database, cid⟩

/-- Modelled from the spec: `ListCollectionsRequest::try_new` (external
`chroma_types`).  Spec §3: identifiers are non-empty. -/
def listCollectionsTryNew (tenant database : String) (limit : Option Nat)
    (offset : Nat) : Except Err ListCollectionsRequest :=
  if tenant = "" ∨ database = "" then .error (.validation "identifiers must be non-empty")
  else .ok ⟨tenant, database, limit, offset⟩

/-- Modelled from the spec: `CreateCollectionRequest::try_new` (external
`chroma_types`).  Spec §3: identifiers are non-empty. -/
def createCollectionTryNew (tenant database name : String) (md : Option Metadata)
    (cfg : Option Json) (getOrCreate : Bool) : Except Err CreateCollectionRequest :=
  if name = "" ∨ tenant = "" ∨ database = "" then
    .error (.validation "identifiers must be non-empty")
  else .ok ⟨tenant, database, name, md, cfg, getOrCreate⟩

/-- Modelled from the spec: `UpdateCollectionRequest::try_new` (external
`chroma_types`); the collection id is already parsed and both patch fields
are optional. -/
def updateCollectionTryNew (cid : Nat) (newName : Option String)
    (newMetadata : Option UpdateMetadata) : Except Err UpdateCollectionRequest :=
  .ok ⟨cid, newName, newMetadata⟩

/-- The per-element metadata decode loop of `add` in lib.rs: each provided
JSON entry is parsed with `parse_metadata`, aborting on the first failure;
absent entries stay absent. -/
def parseMetadataList : List (Option JsonText) → Except Err (List (Option Metadata))
  | [] => .ok []
  | none :: rest => (parseMetadataList rest).map (fun m => none :: m)
  | some t :: rest =>
    match parse_metadata t with
    | .error e => .error e
    | .ok md => (parseMetadataList rest).map (fun m => some md :: m)

/-- Optional-batch wrapper of `parseMetadataList` (the `if let Some` in
lib.rs). -/
def parseMetadatas : Option (List (Option JsonText)) →
    Except Err (Option (List (Option Metadata)))
  | none => .ok none
  | some l => (parseMetadataList l).map some

/-- The per-element update-metadata decode loop of `update`/`upsert` in
lib.rs, using `parse_update_metadata`. -/
def parseUpdateMetadataList : List (Option JsonText) → Except Err (List (Option UpdateMetadata))
  | [] => .ok []
  | none :: rest => (parseUpdateMetadataList rest).map (fun m => none :: m)
  | some t :: rest =>
    match parse_update_metadata t with
    | .error e => .error e
    | .ok md => (parseUpdateMetadataList rest).map (fun m => some md :: m)

/-- Optional-batch wrapper of `parseUpdateMetadataList`. -/
def parseUpdateMetadatas : Option (List (Option JsonText)) →
    Except Err (Option (List (Option UpdateMetadata)))
  | none => .ok none
  | some l => (parseUpdateMetadataList l).map some

/-- The optional-filter decode of `query`/`get`/`delete` in lib.rs: an
absent argument yields no filter without touching the parser. -/
def parseOptWhere : Option JsonText → Except Err (Option Where)
  | none => .ok none
  | some t => parse_where t

/-- The pure decode/build phase of `add` in lib.rs (argument order as in
the source): parse the collection UUID, decode each metadata entry, then
build the typed request. -/
def addBuild (ids : List String) (collection_id : String)
    (embeddings : List (List F32)) (metadatas_json : Option (List (Option JsonText)))
    (documents uris : Option (List (Option String))) (tenant database : String) :
    Except Err AddRequest :=
  match uuidParse collection_id with
  | none => .error .uuidErr
  | some cu =>
    match parseMetadatas metadatas_json with
    | .error e => .error e
    | .ok pm => addTryNew tenant database cu ids embeddings documents uris pm

/-- The `add` dispatch operation of lib.rs, with the engine
(`frontend.add`) as an oracle. -/
def add (h : Handle) (ids : List String) (collection_id : String)
    (embeddings : List (List F32)) (metadatas_json : Option (List (Option JsonText)))
    (documents uris : Option (List (Option String))) (tenant database : String)
    (engine : AddRequest → Except String Unit) : Except Err Unit × Bool :=
  runOp h (addBuild ids collection_id embeddings metadatas_json documents uris tenant database)
    engine

/-- The pure decode/build phase of `query` in lib.rs: parse the collection
UUID, decode the optional filter, decode the include tokens, then build
the typed request.  The `_where_document_json` argument is ignored by the
source. -/
def queryBuild (collection_id : String) (query_embeddings : List (List F32))
    (n_results : Nat) (where_json : Option JsonText)
    (_where_document_json : Option JsonText) (tokens : List String)
    (tenant database : String) : Except Err QueryRequest :=
  match uuidParse collection_id with
  | none => .error .uuidErr
  | some cu =>
    match parseOptWhere where_json with
    | .error e => .error e
    | .ok pw =>
      queryTryNew tenant database cu pw query_embeddings n_results (buildInclude tokens)

/-- The `query` dispatch operation of lib.rs, with the engine
(`frontend.query`) as an oracle returning an opaque result of type `α`. -/
def query {α : Type} (h : Handle) (collection_id : String)
    (query_embeddings : List (List F32)) (n_results : Nat)
    (where_json : Option JsonText) (_where_document_json : Option JsonText)
    (tokens : List String) (tenant database : String)
    (engine : QueryRequest → Except String α) : Except Err α × Bool :=
  runOp h
    (queryBuild collection_id query_embeddings n_results where_json _where_document_json
      tokens tenant database)
    engine

/-- The pure decode/build phase of `get` in lib.rs. -/
def getBuild (collection_id : String) (ids : Option (List String))
    (where_json : Option JsonText) (limit offset : Option Nat)
    (_where_document_json : Option JsonText) (tokens : List String)
    (tenant database : String) : Except Err GetRequest :=
  match uuidParse collection_id with
  | none => .error .uuidErr
  | some cu =>
    match parseOptWhere where_json with
    | .error e => .error e
    | .ok pw =>
      getTryNew tenant database cu ids pw limit (offset.getD 0) (buildInclude tokens)

/-- The `get` dispatch operation of lib.rs (`frontend.get` as oracle). -/
def get {α : Type} (h : Handle) (collection_id : String) (ids : Option (List String))
    (where_json : Option JsonText) (limit offset : Option Nat)
    (_where_document_json : Option JsonText) (tokens : List String)
    (tenant database : String) (engine : GetRequest → Except String α) :
    Except Err α × Bool :=
  runOp h
    (getBuild collection_id ids where_json limit offset _where_document_json tokens
      tenant database)
    engine

/-- The pure decode/build phase of `update` in lib.rs. -/
def updateBuild (collection_id : String) (ids : List String)
    (embeddings : Option (List (Option (List F32))))
    (metadatas_json : Option (List (Option JsonText)))
    (documents uris : Option (List (Option String))) (tenant database : String) :
    Except Err UpdateRequest :=
  match uuidParse collection_id with
  | none => .error .uuidErr
  | some cu =>
    match parseUpdateMetadatas metadatas_json with
    | .error e => .error e
    | .ok pm => updateTryNew tenant database cu ids embeddings documents uris pm

/-- The `update` dispatch operation of lib.rs (`frontend.update` as
oracle). -/
def update (h : Handle) (collection_id : String) (ids : List String)
    (embeddings : Option (List (Option (List F32))))
    (metadatas_json : Option (List (Option JsonText)))
    (documents uris : Option (List (Option String))) (tenant database : String)
    (engine : UpdateRequest → Except String Unit) : Except Err Unit × Bool :=
  runOp h
    (updateBuild collection_id ids embeddings metadatas_json documents uris tenant database)
    engine

/-- The pure decode/build phase of `upsert` in lib.rs. -/
def upsertBuild (collection_id : String) (ids : List String)
    (embeddings : List (List F32)) (metadatas_json : Option (List (Option JsonText)))
    (documents uris : Option (List (Option String))) (tenant database : String) :
    Except Err UpsertRequest :=
  match uuidParse collection_id with
  | none => .error .uuidErr
  | some cu =>
    match parseUpdateMetadatas metadatas_json with
    | .error e => .error e
    | .ok pm => upsertTryNew tenant database cu ids embeddings documents uris pm

/-- The `upsert` dispatch operation of lib.rs (`frontend.upsert` as
oracle). -/
def upsert (h : Handle) (collection_id : String) (ids : List String)
    (embeddings : List (List F32)) (metadatas_json : Option (List (Option JsonText)))
    (documents uris : Option (List (Option String))) (tenant database : String)
    (engine : UpsertRequest → Except String Unit) : Except Err Unit × Bool :=
  runOp h
    (upsertBuild collection_id ids embeddings metadatas_json documents uris tenant database)
    engine

/-- The pure decode/build phase of `delete` in lib.rs. -/
def deleteBuild (collection_id : String) (ids : Option (List String))
    (where_json : Option JsonText) (_where_document_json : Option JsonText)
    (tenant database : String) : Except Err DeleteRequest :=
  match uuidParse collection_id with
  | none => .error .uuidErr
  | some cu =>
    match parseOptWhere where_json with
    | .error e => .error e
    | .ok pw => deleteTryNew tenant database cu ids pw

/-- The `delete` dispatch operation of lib.rs (`frontend.delete` as
oracle). -/
def delete (h : Handle) (collection_id : String) (ids : Option (List String))
    (where_json : Option JsonText) (_where_document_json : Option JsonText)
    (tenant database : String) (engine : DeleteRequest → Except String Unit) :
    Except Err Unit × Bool :=
  runOp h (deleteBuild collection_id ids where_json _where_document_json tenant database)
    engine

/-- The pure decode/build phase of `count` in lib.rs. -/
def countBuild (collection_id : String) (tenant database : String) :
    Except Err CountRequest :=
  match uuidParse collection_id with
  | none => .error .uuidErr
  | some cu => countTryNew tenant database cu

/-- The `count` dispatch operation of lib.rs (`frontend.count` as oracle
returning the record count); the source casts the count with `as i32`. -/
def count (h : Handle) (collection_id : String) (tenant database : String)
    (engine : CountRequest → Except String Nat) : Except Err Int × Bool :=
  let r := runOp h (countBuild collection_id tenant database) engine
  (r.1.map toI32, r.2)

/-- The pure decode/build phase of `update_collection` in lib.rs; the
`_new_config_json` argument is ignored by the source. -/
def updateCollectionBuild (collection_id : String) (new_name : Option String)
    (new_metadata_json : Option JsonText) (_new_config_json : Option JsonText) :
    Except Err UpdateCollectionRequest :=
  match uuidParse collection_id with
  | none => .error .uuidErr
  | some cu =>
    match (match new_metadata_json with
           | none => Except.ok none
           | some t => (parse_update_metadata t).map some) with
    | .error e => .error e
    | .ok pm => updateCollectionTryNew cu new_name pm

/-- The `update_collection` dispatch operation of lib.rs
(`frontend.update_collection` as oracle). -/
def update_collection {α : Type} (h : Handle) (collection_id : String)
    (new_name : Option String) (new_metadata_json : Option JsonText)
    (_new_config_json : Option JsonText)
    (engine : UpdateCollectionRequest → Except String α) : Except Err α × Bool :=
  runOp h (updateCollectionBuild collection_id new_name new_metadata_json _new_config_json)
    engine

/-- The config decode of `create_collection` in lib.rs: the external
`InternalCollectionConfiguration` deserializer; malformed JSON fails, a
parsed value is carried opaquely (its internal schema is the engine's
business). -/
def parseConfig : JsonText → Except Err Json
  | .val j => .ok j
  | _ => .error .configErr

/-- The pure decode/build phase of `create_collection` in lib.rs: decode
the optional metadata, then the optional configuration, then build the
typed request. -/
def createCollectionBuild (name : String) (config_json metadata_json : Option JsonText)
    (get_or_create : Bool) (tenant database : String) : Except Err CreateCollectionRequest :=
  match (match metadata_json with
         | none => Except.ok none
         | some t => (parse_metadata t).map some) with
  | .error e => .error e
  | .ok md =>
    match (match config_json with
           | none => Except.ok none
           | some t => (parseConfig t).map some) with
    | .error e => .error e
    | .ok cfg => createCollectionTryNew tenant database name md cfg get_or_create

/-- The `create_collection` dispatch operation of lib.rs
(`frontend.create_collection` as oracle). -/
def create_collection {α : Type} (h : Handle) (name : String)
    (config_json metadata_json : Option JsonText) (get_or_create : Bool)
    (tenant database : String) (engine : CreateCollectionRequest → Except String α) :
    Except Err α × Bool :=
  runOp h (createCollectionBuild name config_json metadata_json get_or_create tenant database)
    engine

/-- The `list_collections` dispatch operation of lib.rs: an absent offset
defaults to 0; the engine returns the collection list (of an opaque
collection type `γ`). -/
def list_collections {γ : Type} (h : Handle) (limit offset : Option Nat)
    (tenant database : String) (engine : ListCollectionsRequest → Except String (List γ)) :
    Except Err (List γ) × Bool :=
  runOp h (listCollectionsTryNew tenant database limit (offset.getD 0)) engine

/-- The `count_collections` dispatch operation of lib.rs: it builds a
`ListCollectionsRequest` with no limit and offset 0, invokes
`frontend.list_collections`, and returns the list length cast with
`as i32`. -/
def count_collections {γ : Type} (h : Handle) (tenant database : String)
    (engine : ListCollectionsRequest → Except String (List γ)) : Except Err Int × Bool :=
  let r := runOp h (listCollectionsTryNew tenant database none 0) engine
  (r.1.map fun l => toI32 l.length, r.2)

/-- Typed request of `frontend.get_collection`. -/
structure GetCollectionRequest where
  tenant : String
  database : String
  name : String
deriving DecidableEq, Repr

/-- Typed request of `frontend.delete_collection`. -/
structure DeleteCollectionRequest where
  tenant : String
  database : String
  name : String
deriving DecidableEq, Repr

/-- Typed request of `frontend.create_database`. -/
structure CreateDatabaseRequest where
  tenant : String
  name : String
deriving DecidableEq, Repr

/-- Typed request of `frontend.get_database`. -/
structure GetDatabaseRequest where
  tenant : String
  name : String
deriving DecidableEq, Repr

/-- Typed request of `frontend.delete_database`. -/
structure DeleteDatabaseRequest where
  tenant : String
  name : String
deriving DecidableEq, Repr

/-- Typed request of `frontend.list_databases`. -/
structure ListDatabasesRequest where
  tenant : String
  limit : Option Nat
  offset : Nat
deriving DecidableEq, Repr

/-- Typed request of `frontend.create_tenant`. -/
structure CreateTenantRequest where
  name : String
deriving DecidableEq, Repr

/-- Typed request of `frontend.get_tenant`. -/
structure GetTenantRequest where
  name : String
deriving DecidableEq, Repr

/-- Modelled from the spec: `GetCollectionRequest::try_new` (external
`chroma_types`).  Spec §3/§4.4: identifiers are non-empty. -/
def getCollectionTryNew (tenant database cname : String) :
    Except Err GetCollectionRequest :=
  if cname = "" ∨ tenant = "" ∨ database = "" then
    .error (.validation "identifiers must be non-empty")
  else .ok ⟨tenant, database, cname⟩

/-- Modelled from the spec: `DeleteCollectionRequest::try_new` (external
`chroma_types`).  Spec §3/§4.4: identifiers are non-empty. -/
def deleteCollectionTryNew (tenant database cname : String) :
    Except Err DeleteCollectionRequest :=
  if cname = "" ∨ tenant = "" ∨ database = "" then
    .error (.validation "identifiers must be non-empty")
  else .ok ⟨tenant, database, cname⟩

/-- Modelled from the spec: `CreateDatabaseRequest::try_new` (external
`chroma_types`).  Spec §3/§4.4: identifiers are non-empty. -/
def createDatabaseTryNew (tenant dbname : String) : Except Err CreateDatabaseRequest :=
  if dbname = "" ∨ tenant = "" then .error (.validation "identifiers must be non-empty")
  else .ok ⟨tenant, dbname⟩

/-- Modelled from the spec: `GetDatabaseRequest::try_new` (external
`chroma_types`).  Spec §3/§4.4: identifiers are non-empty. -/
def getDatabaseTryNew (tenant dbname : String) : Except Err GetDatabaseRequest :=
  if dbname = "" ∨ tenant = "" then .error (.validation "identifiers must be non-empty")
  else .ok ⟨tenant, dbname⟩

/-- Modelled from the spec: `DeleteDatabaseRequest::try_new` (external
`chroma_types`).  Spec §3/§4.4: identifiers are non-empty. -/
def deleteDatabaseTryNew (tenant dbname : String) : Except Err DeleteDatabaseRequest :=
  if dbname = "" ∨ tenant = "" then .error (.validation "identifiers must be non-empty")
  else .ok ⟨tenant, dbname⟩

/-- Modelled from the spec: `ListDatabasesRequest::try_new` (external
`chroma_types`).  Spec §3: identifiers are non-empty. -/
def listDatabasesTryNew (tenant : String) (limit : Option Nat) (offset : Nat) :
    Except Err ListDatabasesRequest :=
  if tenant = "" then .error (.validation "identifiers must be non-empty")
  else .ok ⟨tenant, limit, offset⟩

/-- Modelled from the spec: `CreateTenantRequest::try_new` (external
`chroma_types`).  Spec §3/§4.4: identifiers are non-empty. -/
def createTenantTryNew (tname : String) : Except Err CreateTenantRequest :=
  if tname = "" then .error (.validation "identifiers must be non-empty")
  else .ok ⟨tname⟩

/-- Modelled from the spec: `GetTenantRequest::try_new` (external
`chroma_types`).  Spec §3/§4.4: identifiers are non-empty. -/
def getTenantTryNew (tname : String) : Except Err GetTenantRequest :=
  if tname = "" then .error (.validation "identifiers must be non-empty")
  else .ok ⟨tname⟩

/-- The `get_collection` dispatch operation of lib.rs
(`frontend.get_collection` as oracle). -/
def get_collection {α : Type} (h : Handle) (cname tenant database : String)
    (engine : GetCollectionRequest → Except String α) : Except Err α × Bool :=
  runOp h (getCollectionTryNew tenant database cname) engine

/-- The `delete_collection` dispatch operation of lib.rs
(`frontend.delete_collection` as oracle; the source discards its result
and returns "ok"). -/
def delete_collection (h : Handle) (cname tenant database : String)
    (engine : DeleteCollectionRequest → Except String Unit) : Except Err Unit × Bool :=
  runOp h (deleteCollectionTryNew tenant database cname) engine

/-- The `create_database` dispatch operation of lib.rs
(`frontend.create_database` as oracle). -/
def create_database {α : Type} (h : Handle) (dbname tenant : String)
    (engine : CreateDatabaseRequest → Except String α) : Except Err α × Bool :=
  runOp h (createDatabaseTryNew tenant dbname) engine

/-- The `get_database` dispatch operation of lib.rs
(`frontend.get_database` as oracle). -/
def get_database {α : Type} (h : Handle) (dbname tenant : String)
    (engine : GetDatabaseRequest → Except String α) : Except Err α × Bool :=
  runOp h (getDatabaseTryNew tenant dbname) engine

/-- The `delete_database` dispatch operation of lib.rs
(`frontend.delete_database` as oracle; result discarded for "ok"). -/
def delete_database (h : Handle) (dbname tenant : String)
    (engine : DeleteDatabaseRequest → Except String Unit) : Except Err Unit × Bool :=
  runOp h (deleteDatabaseTryNew tenant dbname) engine

/-- The `list_databases` dispatch operation of lib.rs: an absent offset
defaults to 0 (`frontend.list_databases` as oracle). -/
def list_databases {γ : Type} (h : Handle) (limit offset : Option Nat) (tenant : String)
    (engine : ListDatabasesRequest → Except String (List γ)) :
    Except Err (List γ) × Bool :=
  runOp h (listDatabasesTryNew tenant limit (offset.getD 0)) engine

/-- The `create_tenant` dispatch operation of lib.rs
(`frontend.create_tenant` as oracle). -/
def create_tenant {α : Type} (h : Handle) (tname : String)
    (engine : CreateTenantRequest → Except String α) : Except Err α × Bool :=
  runOp h (createTenantTryNew tname) engine

/-- The `get_tenant` dispatch operation of lib.rs (`frontend.get_tenant`
as oracle). -/
def get_tenant {α : Type} (h : Handle) (tname : String)
    (engine : GetTenantRequest → Except String α) : Except Err α × Bool :=
  runOp h (getTenantTryNew tname) engine

/-- The `reset` dispatch operation of lib.rs: no decode phase, just the
locks and `frontend.reset`. -/
def reset (h : Handle) (engine : Unit → Except String Unit) : Except Err Unit × Bool :=
  runOp h (.ok ()) engine

/-- The `get_max_batch_size` NIF of lib.rs: it locks the resource mutex
(unwrap panics on poison), ignores the bindings, and returns the constant
40000 without touching the frontend or the engine. -/
def get_max_batch_size (h : Handle) : Except Err Int × Bool :=
  if h.innerPoisoned then (.error .poisonFail, false) else (.ok 40000, false)

/-- Whether a binding-layer result is a request-validation failure. -/
def isValidationResult {α : Type} : Except Err α → Bool
  | .error e => e.isValidation
  | .ok _ => false

/-- A handle with healthy locks and default configuration. -/
def handle0 : Handle := ⟨false, false, false, none⟩

/-- A handle whose exclusive-access (resource) mutex is poisoned. -/
def handleP : Handle := ⟨true, false, false, none⟩

/-- A healthy handle with a different configuration than `handle0`. -/
def handle1 : Handle := ⟨false, true, true, some "/data"⟩

/-- An engine oracle that accepts any request. -/
def okEngine {ρ : Type} : ρ → Except String Unit := fun _ => .ok ()

/-- A count oracle returning zero records. -/
def countEngine0 : CountRequest → Except String Nat := fun _ => .ok 0

/-- A list-collections oracle returning the empty list. -/
def listEngine0 : ListCollectionsRequest → Except String (List Unit) := fun _ => .ok []

/-- A list-databases oracle returning the empty list. -/
def listDbEngine0 : ListDatabasesRequest → Except String (List Unit) := fun _ => .ok []

/-- The nil UUID in canonical text form. -/
def uuidStr0 : String := "00000000-0000-0000-0000-000000000000"

/-- An engine-side collection list of length 2^31, one past the i32
range. -/
def bigList : List Unit := List.replicate (2 ^ 31) ()

/-- An engine oracle whose collection list has length 2^31. -/
def bigEngine : ListCollectionsRequest → Except String (List Unit) := fun _ => .ok bigList

/-- An engine oracle with two collections. -/
def listEngine2 : ListCollectionsRequest → Except String (List Unit) := fun _ => .ok [(), ()]

/-- Mapping a result does not change whether it succeeded. -/
theorem succeeded_map {α β : Type} (r : Except Err α) (f : α → β) :
    succeeded (r.map f) = succeeded r := by
  cases r <;> rfl

/-- If the pure decode/build phase fails, the dispatch returns an error and
the engine is never invoked. -/
theorem runOp_build_error {ρ α : Type} (h : Handle) (build : Except Err ρ)
    (engine : ρ → Except String α) (hb : succeeded build = false) :
    succeeded (runOp h build engine).1 = false ∧ (runOp h build engine).2 = false := by
  cases hp : h.innerPoisoned with
  | true => simp [runOp, hp, succeeded]
  | false =>
    cases build with
    | error e => simp [runOp, hp, succeeded]
    | ok v => simp [succeeded] at hb

/-- A poisoned resource mutex short-circuits every dispatch to the
propagated panic error, before the engine is touched. -/
theorem runOp_inner_poisoned {ρ α : Type} (h : Handle) (build : Except Err ρ)
    (engine : ρ → Except String α) (hp : h.innerPoisoned = true) :
    runOp h build engine = (.error .poisonFail, false) := by
  simp [runOp, hp]

/-- C10: for every valid (non-poisoned) handle, `get_max_batch_size`
returns exactly 40000 and never an error; the result never touches the
engine and does not depend on the handle's configuration or engine
state. -/
theorem max_batch_size_constant (h h' : Handle) (hp : h.innerPoisoned = false)
    (hp' : h'.innerPoisoned = false) :
    (get_max_batch_size h).1 = .ok 40000 ∧ (get_max_batch_size h).2 = false ∧
    get_max_batch_size h' = get_max_batch_size h := by
  simp [get_max_batch_size, hp, hp']

/-- Witness for C10 at two concrete handles with different configuration
and frontend state. -/
theorem max_batch_size_constant_witness :
    handle0.innerPoisoned = false ∧ handle1.innerPoisoned = false ∧
    ((get_max_batch_size handle0).1 = .ok 40000 ∧
      (get_max_batch_size handle0).2 = false ∧
      get_max_batch_size handle1 = get_max_batch_size handle0) :=
  ⟨rfl, rfl, max_batch_size_constant handle0 handle1 rfl rfl⟩

/-- C2: for every dispatch operation and every input, if decoding a
parameter (UUID, metadata JSON, filter JSON, collection config JSON) or
building/validating the typed request fails, the operation returns an
error and the engine is never invoked (no frontend method is called).
Each of the nineteen fallible dispatch operations is quantified over its
own inputs, independently of the others. -/
theorem decode_or_build_failure_never_reaches_engine (h : Handle) :
    (∀ (ids : List String) (cid : String) (emb : List (List F32))
        (mj : Option (List (Option JsonText))) (docs uris : Option (List (Option String)))
        (t d : String) (engA : AddRequest → Except String Unit),
      succeeded (addBuild ids cid emb mj docs uris t d) = false →
        succeeded (add h ids cid emb mj docs uris t d engA).1 = false ∧
        (add h ids cid emb mj docs uris t d engA).2 = false) ∧
    (∀ (α : Type) (cid : String) (qemb : List (List F32)) (n : Nat)
        (wj wdj : Option JsonText) (toks : List String) (t d : String)
        (engQ : QueryRequest → Except String α),
      succeeded (queryBuild cid qemb n wj wdj toks t d) = false →
        succeeded (query h cid qemb n wj wdj toks t d engQ).1 = false ∧
        (query h cid qemb n wj wdj toks t d engQ).2 = false) ∧
    (∀ (α : Type) (cid : String) (oids : Option (List String)) (wj : Option JsonText)
        (lim off : Option Nat) (wdj : Option JsonText) (toks : List String)
        (t d : String) (engG : GetRequest → Except String α),
      succeeded (getBuild cid oids wj lim off wdj toks t d) = false →
        succeeded (get h cid oids wj lim off wdj toks t d engG).1 = false ∧
        (get h cid oids wj lim off wdj toks t d engG).2 = false) ∧
    (∀ (cid : String) (ids : List String) (oEmb : Option (List (Option (List F32))))
        (mj : Option (List (Option JsonText))) (docs uris : Option (List (Option String)))
        (t d : String) (engU : UpdateRequest → Except String Unit),
      succeeded (updateBuild cid ids oEmb mj docs uris t d) = false →
        succeeded (update h cid ids oEmb mj docs uris t d engU).1 = false ∧
        (update h cid ids oEmb mj docs uris t d engU).2 = false) ∧
    (∀ (cid : String) (ids : List String) (emb : List (List F32))
        (mj : Option (List (Option JsonText))) (docs uris : Option (List (Option String)))
        (t d : String) (engP : UpsertRequest → Except String Unit),
      succeeded (upsertBuild cid ids emb mj docs uris t d) = false →
        succeeded (upsert h cid ids emb mj docs uris t d engP).1 = false ∧
        (upsert h cid ids emb mj docs uris t d engP).2 = false) ∧
    (∀ (cid : String) (oids : Option (List String)) (wj wdj : Option JsonText)
        (t d : String) (engD : DeleteRequest → Except String Unit),
      succeeded (deleteBuild cid oids wj wdj t d) = false →
        succeeded (delete h cid oids wj wdj t d engD).1 = false ∧
        (delete h cid oids wj wdj t d engD).2 = false) ∧
    (∀ (cid t d : String) (engC : CountRequest → Except String Nat),
      succeeded (countBuild cid t d) = false →
        succeeded (count h cid t d engC).1 = false ∧
        (count h cid t d engC).2 = false) ∧
    (∀ (α : Type) (cid : String) (nn : Option String) (mj1 ncj : Option JsonText)
        (engUC : UpdateCollectionRequest → Except String α),
      succeeded (updateCollectionBuild cid nn mj1 ncj) = false →
        succeeded (update_collection h cid nn mj1 ncj engUC).1 = false ∧
        (update_collection h cid nn mj1 ncj engUC).2 = false) ∧
    (∀ (α : Type) (cname : String) (cfg mdj : Option JsonText) (goc : Bool)
        (t d : String) (engCC : CreateCollectionRequest → Except String α),
      succeeded (createCollectionBuild cname cfg mdj goc t d) = false →
        succeeded (create_collection h cname cfg mdj goc t d engCC).1 = false ∧
        (create_collection h cname cfg mdj goc t d engCC).2 = false) ∧
    (∀ (γ : Type) (lim off : Option Nat) (t d : String)
        (engL : ListCollectionsRequest → Except String (List γ)),
      succeeded (listCollectionsTryNew t d lim (off.getD 0)) = false →
        succeeded (list_collections h lim off t d engL).1 = false ∧
        (list_collections h lim off t d engL).2 = false) ∧
    (∀ (γ : Type) (t d : String)
        (engL : ListCollectionsRequest → Except String (List γ)),
      succeeded (listCollectionsTryNew t d none 0) = false →
        succeeded (count_collections h t d engL).1 = false ∧
        (count_collections h t d engL).2 = false) ∧
    (∀ (α : Type) (cname t d : String) (engGC : GetCollectionRequest → Except String α),
      succeeded (getCollectionTryNew t d cname) = false →
        succeeded (get_collection h cname t d engGC).1 = false ∧
        (get_collection h cname t d engGC).2 = false) ∧
    (∀ (cname t d : String) (engDC : DeleteCollectionRequest → Except String Unit),
      succeeded (deleteCollectionTryNew t d cname) = false →
        succeeded (delete_collection h cname t d engDC).1 = false ∧
        (delete_collection h cname t d engDC).2 = false) ∧
    (∀ (α : Type) (dbname t : String) (engCD : CreateDatabaseRequest → Except String α),
      succeeded (createDatabaseTryNew t dbname) = false →
        succeeded (create_database h dbname t engCD).1 = false ∧
        (create_database h dbname t engCD).2 = false) ∧
    (∀ (α : Type) (dbname t : String) (engGD : GetDatabaseRequest → Except String α),
      succeeded (getDatabaseTryNew t dbname) = false →
        succeeded (get_database h dbname t engGD).1 = false ∧
        (get_database h dbname t engGD).2 = false) ∧
    (∀ (dbname t : String) (engDD : DeleteDatabaseRequest → Except String Unit),
      succeeded (deleteDatabaseTryNew t dbname) = false →
        succeeded (delete_database h dbname t engDD).1 = false ∧
        (delete_database h dbname t engDD).2 = false) ∧
    (∀ (γ : Type) (lim off : Option Nat) (t : String)
        (engLD : ListDatabasesRequest → Except String (List γ)),
      succeeded (listDatabasesTryNew t lim (off.getD 0)) = false →
        succeeded (list_databases h lim off t engLD).1 = false ∧
        (list_databases h lim off t engLD).2 = false) ∧
    (∀ (α : Type) (tname : String) (engCT : CreateTenantRequest → Except String α),
      succeeded (createTenantTryNew tname) = false →
        succeeded (create_tenant h tname engCT).1 = false ∧
        (create_tenant h tname engCT).2 = false) ∧
    (∀ (α : Type) (tname : String) (engGT : GetTenantRequest → Except String α),
      succeeded (getTenantTryNew tname) = false →
        succeeded (get_tenant h tname engGT).1 = false ∧
        (get_tenant h tname engGT).2 = false) := by
  refine ⟨?_, ?_, ?_, ?_, ?_, ?_, ?_, ?_, ?_, ?_, ?_, ?_, ?_, ?_, ?_, ?_, ?_, ?_, ?_⟩
  · intro ids cid emb mj docs uris t d engA hb
    exact runOp_build_error h _ engA hb
  · intro α cid qemb n wj wdj toks t d engQ hb
    exact runOp_build_error h _ engQ hb
  · intro α cid oids wj lim off wdj toks t d engG hb
    exact runOp_build_error h _ engG hb
  · intro cid ids oEmb mj docs uris t d engU hb
    exact runOp_build_error h _ engU hb
  · intro cid ids emb mj docs uris t d engP hb
    exact runOp_build_error h _ engP hb
  · intro cid oids wj wdj t d engD hb
    exact runOp_build_error h _ engD hb
  · intro cid t d engC hb
    have hr := runOp_build_error h (countBuild cid t d) engC hb
    refine ⟨?_, hr.2⟩
    show succeeded ((runOp h (countBuild cid t d) engC).1.map toI32) = false
    rw [succeeded_map]
    exact hr.1
  · intro α cid nn mj1 ncj engUC hb
    exact runOp_build_error h _ engUC hb
  · intro α cname cfg mdj goc t d engCC hb
    exact runOp_build_error h _ engCC hb
  · intro γ lim off t d engL hb
    exact runOp_build_error h _ engL hb
  · intro γ t d engL hb
    have hr := runOp_build_error h (listCollectionsTryNew t d none 0) engL hb
    refine ⟨?_, hr.2⟩
    show succeeded ((runOp h (listCollectionsTryNew t d none 0) engL).1.map
      fun l => toI32 l.length) = false
    rw [succeeded_map]
    exact hr.1
  · intro α cname t d engGC hb
    exact runOp_build_error h _ engGC hb
  · intro cname t d engDC hb
    exact runOp_build_error h _ engDC hb
  · intro α dbname t engCD hb
    exact runOp_build_error h _ engCD hb
  · intro α dbname t engGD hb
    exact runOp_build_error h _ engGD hb
  · intro dbname t engDD hb
    exact runOp_build_error h _ engDD hb
  · intro γ lim off t engLD hb
    exact runOp_build_error h _ engLD hb
  · intro α tname engCT hb
    exact runOp_build_error h _ engCT hb
  · intro α tname engGT hb
    exact runOp_build_error h _ engGT hb

/-- Witness for C2 at two independent concrete failures: an `add` whose
collection id does not parse, and a `create_collection` whose metadata
JSON is malformed. -/
theorem decode_or_build_failure_never_reaches_engine_witness :
    succeeded (addBuild ["a"] "" [] none none none "t" "d") = false ∧
    (succeeded (add handle0 ["a"] "" [] none none none "t" "d" okEngine).1 = false ∧
      (add handle0 ["a"] "" [] none none none "t" "d" okEngine).2 = false) ∧
    succeeded (createCollectionBuild "c" none (some .malformed) true "t" "d") = false ∧
    (succeeded (create_collection handle0 "c" none (some .malformed) true "t" "d"
        okEngine).1 = false ∧
      (create_collection handle0 "c" none (some .malformed) true "t" "d" okEngine).2
        = false) :=
  ⟨rfl,
    (decode_or_build_failure_never_reaches_engine handle0).1 ["a"] "" [] none none
      none "t" "d" okEngine rfl,
    rfl,
    (decode_or_build_failure_never_reaches_engine handle0).2.2.2.2.2.2.2.2.1 Unit "c"
      none (some .malformed) true "t" "d" okEngine rfl⟩

/-- C6: for every record-level operation taking a collection id (add, get,
query, update, upsert, delete, count, update_collection), if the
collection id string does not parse as a valid canonical UUID the call
fails before reaching the engine (no frontend method is invoked). -/
theorem invalid_uuid_fails_before_engine
    (h : Handle) (t d cid : String) (ids : List String)
    (emb : List (List F32)) (oEmb : Option (List (Option (List F32))))
    (mj : Option (List (Option JsonText))) (docs uris : Option (List (Option String)))
    (oids : Option (List String)) (wj wdj mj1 cfg : Option JsonText)
    (lim off : Option Nat) (toks : List String) (n : Nat) (nn : Option String)
    (α β γ : Type)
    (engA : AddRequest → Except String Unit) (engQ : QueryRequest → Except String α)
    (engG : GetRequest → Except String β) (engU : UpdateRequest → Except String Unit)
    (engP : UpsertRequest → Except String Unit) (engD : DeleteRequest → Except String Unit)
    (engC : CountRequest → Except String Nat)
    (engUC : UpdateCollectionRequest → Except String γ)
    (hbad : uuidParse cid = none) :
    (succeeded (add h ids cid emb mj docs uris t d engA).1 = false ∧
      (add h ids cid emb mj docs uris t d engA).2 = false) ∧
    (succeeded (get h cid oids wj lim off wdj toks t d engG).1 = false ∧
      (get h cid oids wj lim off wdj toks t d engG).2 = false) ∧
    (succeeded (query h cid emb n wj wdj toks t d engQ).1 = false ∧
      (query h cid emb n wj wdj toks t d engQ).2 = false) ∧
    (succeeded (update h cid ids oEmb mj docs uris t d engU).1 = false ∧
      (update h cid ids oEmb mj docs uris t d engU).2 = false) ∧
    (succeeded (upsert h cid ids emb mj docs uris t d engP).1 = false ∧
      (upsert h cid ids emb mj docs uris t d engP).2 = false) ∧
    (succeeded (delete h cid oids wj wdj t d engD).1 = false ∧
      (delete h cid oids wj wdj t d engD).2 = false) ∧
    (succeeded (count h cid t d engC).1 = false ∧
      (count h cid t d engC).2 = false) ∧
    (succeeded (update_collection h cid nn mj1 cfg engUC).1 = false ∧
      (update_collection h cid nn mj1 cfg engUC).2 = false) := by
  have hA : succeeded (addBuild ids cid emb mj docs uris t d) = false := by
    simp [addBuild, hbad, succeeded]
  have hQ : succeeded (queryBuild cid emb n wj wdj toks t d) = false := by
    simp [queryBuild, hbad, succeeded]
  have hG : succeeded (getBuild cid oids wj lim off wdj toks t d) = false := by
    simp [getBuild, hbad, succeeded]
  have hU : succeeded (updateBuild cid ids oEmb mj docs uris t d) = false := by
    simp [updateBuild, hbad, succeeded]
  have hP : succeeded (upsertBuild cid ids emb mj docs uris t d) = false := by
    simp [upsertBuild, hbad, succeeded]
  have hD : succeeded (deleteBuild cid oids wj wdj t d) = false := by
    simp [deleteBuild, hbad, succeeded]
  have hC : succeeded (countBuild cid t d) = false := by
    simp [countBuild, hbad, succeeded]
  have hUC : succeeded (updateCollectionBuild cid nn mj1 cfg) = false := by
    simp [updateCollectionBuild, hbad, succeeded]
  refine ⟨runOp_build_error h _ engA hA, runOp_build_error h _ engG hG,
    runOp_build_error h _ engQ hQ, runOp_build_error h _ engU hU,
    runOp_build_error h _ engP hP, runOp_build_error h _ engD hD,
    ?_, runOp_build_error h _ engUC hUC⟩
  have hr := runOp_build_error h (countBuild cid t d) engC hC
  refine ⟨?_, hr.2⟩
  show succeeded ((runOp h (countBuild cid t d) engC).1.map toI32) = false
  rw [succeeded_map]
  exact hr.1

/-- Witness for C6: the string "not-a-uuid" is not a canonical UUID and
`count` against it is rejected before the engine. -/
theorem invalid_uuid_fails_before_engine_witness :
    uuidParse "not-a-uuid" = none ∧
    (succeeded (count handle0 "not-a-uuid" "t" "d" countEngine0).1 = false ∧
      (count handle0 "not-a-uuid" "t" "d" countEngine0).2 = false) :=
  ⟨rfl,
    (invalid_uuid_fails_before_engine handle0 "t" "d" "not-a-uuid" [] [] none none none
      none none none none none none none none [] 1 none Unit Unit Unit okEngine
      okEngine okEngine okEngine okEngine okEngine countEngine0 okEngine
      rfl).2.2.2.2.2.2.1⟩

/-- C3: for every handle whose exclusive-access (resource) mutex has been
poisoned by a prior panic in a held critical section, every subsequent
dispatch call against that handle fails loudly with the propagated
fatal/panic error and never proceeds to the engine (`lock().unwrap()`
panics on poison, and the host NIF runtime raises the panic as an
error). -/
theorem poisoned_lock_fails_loudly
    (h : Handle) (t d cid cname dbname tname : String) (ids : List String)
    (emb : List (List F32)) (oEmb : Option (List (Option (List F32))))
    (mj : Option (List (Option JsonText))) (docs uris : Option (List (Option String)))
    (oids : Option (List String)) (wj wdj mj1 cfg : Option JsonText)
    (lim off : Option Nat) (toks : List String) (n : Nat) (nn : Option String)
    (goc : Bool) (α β γ δ : Type)
    (engA : AddRequest → Except String Unit) (engQ : QueryRequest → Except String α)
    (engG : GetRequest → Except String β) (engU : UpdateRequest → Except String Unit)
    (engP : UpsertRequest → Except String Unit) (engD : DeleteRequest → Except String Unit)
    (engC : CountRequest → Except String Nat)
    (engUC : UpdateCollectionRequest → Except String γ)
    (engCC : CreateCollectionRequest → Except String δ)
    (engL : ListCollectionsRequest → Except String (List Unit))
    (engGC : GetCollectionRequest → Except String α)
    (engDC : DeleteCollectionRequest → Except String Unit)
    (engCD : CreateDatabaseRequest → Except String β)
    (engGD : GetDatabaseRequest → Except String γ)
    (engDD : DeleteDatabaseRequest → Except String Unit)
    (engLD : ListDatabasesRequest → Except String (List Unit))
    (engCT : CreateTenantRequest → Except String δ)
    (engGT : GetTenantRequest → Except String δ)
    (engR : Unit → Except String Unit)
    (hp : h.innerPoisoned = true) :
    add h ids cid emb mj docs uris t d engA = (.error .poisonFail, false) ∧
    query h cid emb n wj wdj toks t d engQ = (.error .poisonFail, false) ∧
    get h cid oids wj lim off wdj toks t d engG = (.error .poisonFail, false) ∧
    update h cid ids oEmb mj docs uris t d engU = (.error .poisonFail, false) ∧
    upsert h cid ids emb mj docs uris t d engP = (.error .poisonFail, false) ∧
    delete h cid oids wj wdj t d engD = (.error .poisonFail, false) ∧
    count h cid t d engC = (.error .poisonFail, false) ∧
    update_collection h cid nn mj1 cfg engUC = (.error .poisonFail, false) ∧
    create_collection h cname cfg mj1 goc t d engCC = (.error .poisonFail, false) ∧
    list_collections h lim off t d engL = (.error .poisonFail, false) ∧
    count_collections h t d engL = (.error .poisonFail, false) ∧
    get_collection h cname t d engGC = (.error .poisonFail, false) ∧
    delete_collection h cname t d engDC = (.error .poisonFail, false) ∧
    create_database h dbname t engCD = (.error .poisonFail, false) ∧
    get_database h dbname t engGD = (.error .poisonFail, false) ∧
    delete_database h dbname t engDD = (.error .poisonFail, false) ∧
    list_databases h lim off t engLD = (.error .poisonFail, false) ∧
    create_tenant h tname engCT = (.error .poisonFail, false) ∧
    get_tenant h tname engGT = (.error .poisonFail, false) ∧
    reset h engR = (.error .poisonFail, false) ∧
    get_max_batch_size h = (.error .poisonFail, false) := by
  refine ⟨runOp_inner_poisoned h _ engA hp, runOp_inner_poisoned h _ engQ hp,
    runOp_inner_poisoned h _ engG hp, runOp_inner_poisoned h _ engU hp,
    runOp_inner_poisoned h _ engP hp, runOp_inner_poisoned h _ engD hp,
    ?_, runOp_inner_poisoned h _ engUC hp, runOp_inner_poisoned h _ engCC hp,
    runOp_inner_poisoned h _ engL hp, ?_, runOp_inner_poisoned h _ engGC hp,
    runOp_inner_poisoned h _ engDC hp, runOp_inner_poisoned h _ engCD hp,
    runOp_inner_poisoned h _ engGD hp, runOp_inner_poisoned h _ engDD hp,
    runOp_inner_poisoned h _ engLD hp, runOp_inner_poisoned h _ engCT hp,
    runOp_inner_poisoned h _ engGT hp, runOp_inner_poisoned h _ engR hp,
    by simp [get_max_batch_size, hp]⟩
  · show ((runOp h (countBuild cid t d) engC).1.map toI32,
      (runOp h (countBuild cid t d) engC).2) = (.error .poisonFail, false)
    rw [runOp_inner_poisoned h _ engC hp]
    rfl
  · show ((runOp h (listCollectionsTryNew t d none 0) engL).1.map fun l => toI32 l.length,
      (runOp h (listCollectionsTryNew t d none 0) engL).2) = (.error .poisonFail, false)
    rw [runOp_inner_poisoned h _ engL hp]
    rfl

/-- Witness for C3 at a concrete poisoned handle: `add` fails with the
propagated panic error and the engine is never invoked. -/
theorem poisoned_lock_fails_loudly_witness :
    handleP.innerPoisoned = true ∧
    add handleP [] "c" [] none none none "t" "d" okEngine = (.error .poisonFail, false) :=
  ⟨rfl,
    (poisoned_lock_fails_loudly handleP "t" "d" "c" "n" "db" "tn" [] [] none none none
      none none none none none none none none [] 1 none true Unit Unit Unit Unit
      okEngine okEngine okEngine okEngine okEngine okEngine countEngine0 okEngine
      okEngine listEngine0 okEngine okEngine okEngine okEngine okEngine listDbEngine0
      okEngine okEngine okEngine rfl).1⟩

/-- Membership in a conditional singleton list. -/
theorem mem_cond_singleton (c : Bool) (x y : Include) :
    (x ∈ if c then [y] else []) ↔ (c = true ∧ x = y) := by
  cases c <;> simp

/-- Filtering a token list down to the recognized tokens does not change
any recognized-token membership test. -/
theorem contains_filter_recognized (toks : List String) (s : String)
    (hs : recognizedToken s = true) :
    (toks.filter fun x => recognizedToken x).contains s = toks.contains s := by
  simp [List.contains, List.mem_filter, hs]

/-- Dropping unrecognized tokens leaves the decoded include set
unchanged. -/
theorem buildInclude_filter (toks : List String) :
    buildInclude (toks.filter fun s => recognizedToken s) = buildInclude toks := by
  unfold buildInclude
  rw [contains_filter_recognized toks "documents" (by decide),
    contains_filter_recognized toks "embeddings" (by decide),
    contains_filter_recognized toks "metadatas" (by decide),
    contains_filter_recognized toks "distances" (by decide),
    contains_filter_recognized toks "uris" (by decide)]

/-- C5: include tokens outside the recognized set (documents, embeddings,
metadatas, distances, uris) are silently dropped and never cause `query`
or `get` to be rejected (both calls are unchanged by removing them), and
each recognized token contributes exactly its selector to the decoded
include set. -/
theorem include_tokens_dropped_not_rejected
    (toks : List String) (h : Handle) (cid : String) (qemb : List (List F32))
    (n : Nat) (wj wdj : Option JsonText) (t d : String) (oids : Option (List String))
    (lim off : Option Nat) (α β : Type)
    (engQ : QueryRequest → Except String α) (engG : GetRequest → Except String β) :
    buildInclude (toks.filter fun s => recognizedToken s) = buildInclude toks ∧
    (Include.document ∈ buildInclude toks ↔ "documents" ∈ toks) ∧
    (Include.embedding ∈ buildInclude toks ↔ "embeddings" ∈ toks) ∧
    (Include.metadata ∈ buildInclude toks ↔ "metadatas" ∈ toks) ∧
    (Include.distance ∈ buildInclude toks ↔ "distances" ∈ toks) ∧
    (Include.uri ∈ buildInclude toks ↔ "uris" ∈ toks) ∧
    query h cid qemb n wj wdj toks t d engQ
      = query h cid qemb n wj wdj (toks.filter fun s => recognizedToken s) t d engQ ∧
    get h cid oids wj lim off wdj toks t d engG
      = get h cid oids wj lim off wdj (toks.filter fun s => recognizedToken s) t d engG := by
  refine ⟨buildInclude_filter toks, ?_, ?_, ?_, ?_, ?_, ?_, ?_⟩
  · simp [buildInclude, List.mem_append, mem_cond_singleton, List.contains]
  · simp [buildInclude, List.mem_append, mem_cond_singleton, List.contains]
  · simp [buildInclude, List.mem_append, mem_cond_singleton, List.contains]
  · simp [buildInclude, List.mem_append, mem_cond_singleton, List.contains]
  · simp [buildInclude, List.mem_append, mem_cond_singleton, List.contains]
  · simp only [query, queryBuild, buildInclude_filter toks]
  · simp only [get, getBuild, buildInclude_filter toks]

/-- A failing filter decode always reports the filter decode error. -/
theorem parse_where_error (tj : JsonText) (hw : succeeded (parse_where tj) = false) :
    parse_where tj = .error .whereErr := by
  cases tj with
  | empty => simp [parse_where, succeeded] at hw
  | malformed => rfl
  | val j =>
    cases hdw : decodeWhere j with
    | some w => simp [parse_where, hdw, succeeded] at hw
    | none => simp [parse_where, hdw]

/-- C4 counterexample: with a collection id that is not a UUID and a
malformed filter, `query` fails with the identifier decode error, not the
filter decode (MalformedFilter) error the claim promises. -/
theorem filter_error_class_cex :
    (query handle0 "" [] 1 (some .malformed) none [] "t" "d" okEngine).1
      = Except.error Err.uuidErr ∧
    Err.uuidErr ≠ Err.whereErr :=
  ⟨rfl, by decide⟩

/-- C4 (amended): an absent or empty filter input yields "no filter"
(match all) and is not an error; a malformed filter JSON (or one using an
unrecognized operator) always makes get/query/delete fail with the filter
never passed to the engine; the error reported is the filter decode
(MalformedFilter) error if the collection id parses — identifier decode
precedes filter decode in the source — and the earlier identifier decode
error otherwise. -/
theorem filter_decode_checked_before_engine
    (h : Handle) (cid : String) (u : Nat) (qemb : List (List F32)) (n : Nat)
    (wdj : Option JsonText) (toks : List String) (t d : String)
    (oids dids : Option (List String)) (lim off : Option Nat) (tj : JsonText)
    (α β : Type) (engQ : QueryRequest → Except String α)
    (engG : GetRequest → Except String β) (engD : DeleteRequest → Except String Unit)
    (hw : succeeded (parse_where tj) = false) :
    (∀ req, queryBuild cid qemb n none wdj toks t d = .ok req →
      req.whereClause = none) ∧
    (∀ req, getBuild cid oids none lim off wdj toks t d = .ok req →
      req.whereClause = none) ∧
    (∀ req, deleteBuild cid dids none wdj t d = .ok req → req.whereClause = none) ∧
    parse_where .empty = .ok none ∧
    query h cid qemb n (some .empty) wdj toks t d engQ
      = query h cid qemb n none wdj toks t d engQ ∧
    get h cid oids (some .empty) lim off wdj toks t d engG
      = get h cid oids none lim off wdj toks t d engG ∧
    delete h cid dids (some .empty) wdj t d engD
      = delete h cid dids none wdj t d engD ∧
    (succeeded (query h cid qemb n (some tj) wdj toks t d engQ).1 = false ∧
      (query h cid qemb n (some tj) wdj toks t d engQ).2 = false) ∧
    (succeeded (get h cid oids (some tj) lim off wdj toks t d engG).1 = false ∧
      (get h cid oids (some tj) lim off wdj toks t d engG).2 = false) ∧
    (succeeded (delete h cid dids (some tj) wdj t d engD).1 = false ∧
      (delete h cid dids (some tj) wdj t d engD).2 = false) ∧
    (h.innerPoisoned = false → uuidParse cid = some u →
      query h cid qemb n (some tj) wdj toks t d engQ = (.error .whereErr, false) ∧
      get h cid oids (some tj) lim off wdj toks t d engG = (.error .whereErr, false) ∧
      delete h cid dids (some tj) wdj t d engD = (.error .whereErr, false)) ∧
    decodeWhere (Json.obj [("flag", Json.obj [("$unknown", Json.num 1)])]) = none := by
  have hw2 : parse_where tj = .error .whereErr := parse_where_error tj hw
  have hbq : succeeded (queryBuild cid qemb n (some tj) wdj toks t d) = false := by
    cases hu2 : uuidParse cid with
    | none => simp [queryBuild, hu2, succeeded]
    | some cu => simp [queryBuild, hu2, parseOptWhere, hw2, succeeded]
  have hbg : succeeded (getBuild cid oids (some tj) lim off wdj toks t d) = false := by
    cases hu2 : uuidParse cid with
    | none => simp [getBuild, hu2, succeeded]
    | some cu => simp [getBuild, hu2, parseOptWhere, hw2, succeeded]
  have hbd : succeeded (deleteBuild cid dids (some tj) wdj t d) = false := by
    cases hu2 : uuidParse cid with
    | none => simp [deleteBuild, hu2, succeeded]
    | some cu => simp [deleteBuild, hu2, parseOptWhere, hw2, succeeded]
  refine ⟨?_, ?_, ?_, rfl, rfl, rfl, rfl, runOp_build_error h _ engQ hbq,
    runOp_build_error h _ engG hbg, runOp_build_error h _ engD hbd, ?_, rfl⟩
  · intro req hreq
    cases hu2 : uuidParse cid with
    | none => simp [queryBuild, hu2] at hreq
    | some cu =>
      simp only [queryBuild, hu2, parseOptWhere] at hreq
      unfold queryTryNew at hreq
      split at hreq
      · cases hreq
      · cases hreq
        rfl
  · intro req hreq
    cases hu2 : uuidParse cid with
    | none => simp [getBuild, hu2] at hreq
    | some cu =>
      simp only [getBuild, hu2, parseOptWhere] at hreq
      unfold getTryNew at hreq
      split at hreq
      · cases hreq
      · cases hreq
        rfl
  · intro req hreq
    cases hu2 : uuidParse cid with
    | none => simp [deleteBuild, hu2] at hreq
    | some cu =>
      simp only [deleteBuild, hu2, parseOptWhere, deleteTryNew] at hreq
      cases hreq
      rfl
  · intro hp hu
    refine ⟨?_, ?_, ?_⟩
    · simp [query, queryBuild, hu, parseOptWhere, hw2, runOp, hp]
    · simp [get, getBuild, hu, parseOptWhere, hw2, runOp, hp]
    · simp [delete, deleteBuild, hu, parseOptWhere, hw2, runOp, hp]

/-- Witness for C4 at a concrete healthy handle, valid collection id and
malformed filter text, exercising both the unconditional hypothesis and
the conditional error-class conjunct. -/
theorem filter_decode_checked_before_engine_witness :
    succeeded (parse_where .malformed) = false ∧
    handle0.innerPoisoned = false ∧ uuidParse uuidStr0 = some 0 ∧
    query handle0 uuidStr0 [] 1 (some .malformed) none [] "t" "d" okEngine
      = (.error .whereErr, false) :=
  ⟨rfl, rfl, rfl,
    ((filter_decode_checked_before_engine handle0 uuidStr0 0 [] 1 none [] "t" "d" none
      none none none .malformed Unit Unit okEngine okEngine okEngine
      rfl).2.2.2.2.2.2.2.2.2.2.1 rfl rfl).1⟩

/-- The metadata decode loop preserves the batch length. -/
theorem parseMetadataList_length (l : List (Option JsonText))
    (m : List (Option Metadata)) (hm : parseMetadataList l = .ok m) :
    m.length = l.length := by
  induction l generalizing m with
  | nil =>
    simp [parseMetadataList] at hm
    subst hm
    rfl
  | cons a rest ih =>
    cases a with
    | none =>
      cases hr : parseMetadataList rest with
      | error e => simp [parseMetadataList, hr, Except.map] at hm
      | ok m' =>
        simp [parseMetadataList, hr, Except.map] at hm
        subst hm
        simp [ih m' hr]
    | some t =>
      cases hpt : parse_metadata t with
      | error e => simp [parseMetadataList, hpt] at hm
      | ok md =>
        cases hr : parseMetadataList rest with
        | error e => simp [parseMetadataList, hpt, hr, Except.map] at hm
        | ok m' =>
          simp [parseMetadataList, hpt, hr, Except.map] at hm
          subst hm
          simp [ih m' hr]

/-- A successful metadata decode does not change whether the batch length
matches. -/
theorem parseMetadatas_optLen (mj : Option (List (Option JsonText)))
    (pm : Option (List (Option Metadata))) (n : Nat)
    (hm : parseMetadatas mj = .ok pm) :
    optLenMatches pm n = optLenMatches mj n := by
  cases mj with
  | none =>
    simp [parseMetadatas] at hm
    subst hm
    rfl
  | some l =>
    cases hr : parseMetadataList l with
    | error e => simp [parseMetadatas, hr, Except.map] at hm
    | ok m =>
      simp [parseMetadatas, hr, Except.map] at hm
      subst hm
      simp [optLenMatches, parseMetadataList_length l m hr]

/-- Any length mismatch makes the record-add builder fail with a
validation error. -/
theorem addTryNew_mismatch (t d : String) (cu : Nat) (ids : List String)
    (emb : List (List F32)) (docs uris : Option (List (Option String)))
    (pmd : Option (List (Option Metadata)))
    (hmis : emb.length ≠ ids.length ∨ optLenMatches docs ids.length = false ∨
      optLenMatches uris ids.length = false ∨ optLenMatches pmd ids.length = false) :
    isValidationResult (addTryNew t d cu ids emb docs uris pmd) = true := by
  unfold addTryNew
  split
  · rfl
  · split
    · rfl
    · split
      · rfl
      · split
        · rfl
        · split
          · rfl
          · rename_i h1 h2 h3 h4 h5
            exfalso
            simp at h1 h2 h3 h4
            rcases hmis with hx | hx | hx | hx
            · exact hx h1
            · rw [h2] at hx; cases hx
            · rw [h3] at hx; cases hx
            · rw [h4] at hx; cases hx

/-- A length mismatch stated on the JSON metadata batch transfers to the
decoded batch. -/
theorem mismatch_transfer (mj : Option (List (Option JsonText)))
    (pm : Option (List (Option Metadata))) (ids : List String) (emb : List (List F32))
    (docs uris : Option (List (Option String)))
    (hpm : parseMetadatas mj = .ok pm)
    (hmis : emb.length ≠ ids.length ∨ optLenMatches docs ids.length = false ∨
      optLenMatches uris ids.length = false ∨ optLenMatches mj ids.length = false) :
    emb.length ≠ ids.length ∨ optLenMatches docs ids.length = false ∨
      optLenMatches uris ids.length = false ∨ optLenMatches pm ids.length = false := by
  rcases hmis with hx | hx | hx | hx
  · exact Or.inl hx
  · exact Or.inr (Or.inl hx)
  · exact Or.inr (Or.inr (Or.inl hx))
  · refine Or.inr (Or.inr (Or.inr ?_))
    rw [parseMetadatas_optLen mj pm ids.length hpm]
    exact hx

/-- C1 counterexample: a record-add call whose ids/embeddings lengths
mismatch but whose collection id is not a UUID fails with the identifier
decode error, not the ValidationError the claim promises (the engine is
still never invoked). -/
theorem add_length_mismatch_error_class_cex :
    (["a"] : List String).length ≠ ([] : List (List F32)).length ∧
    (add handle0 ["a"] "" [] none none none "t" "d" okEngine).1
      = Except.error Err.uuidErr ∧
    Err.uuidErr.isValidation = false ∧
    (add handle0 ["a"] "" [] none none none "t" "d" okEngine).2 = false :=
  ⟨by decide, rfl, rfl, rfl⟩

/-- C1 (amended): if the length of ids differs from the length of
embeddings, or any provided optional array has a different length, then
`add` fails and the engine (`frontend.add`) is never invoked; the error is
a ValidationError provided the collection id parses and all metadata
entries decode (decode errors are reported first in the source). -/
theorem add_length_mismatch_rejected
    (h : Handle) (t d cid : String) (ids : List String) (emb : List (List F32))
    (mj : Option (List (Option JsonText))) (docs uris : Option (List (Option String)))
    (engA : AddRequest → Except String Unit) (u : Nat)
    (pm : Option (List (Option Metadata)))
    (hmis : emb.length ≠ ids.length ∨ optLenMatches docs ids.length = false ∨
      optLenMatches uris ids.length = false ∨ optLenMatches mj ids.length = false) :
    succeeded (add h ids cid emb mj docs uris t d engA).1 = false ∧
    (add h ids cid emb mj docs uris t d engA).2 = false ∧
    (h.innerPoisoned = false → uuidParse cid = some u → parseMetadatas mj = .ok pm →
      isValidationResult (add h ids cid emb mj docs uris t d engA).1 = true) := by
  have hbuild : succeeded (addBuild ids cid emb mj docs uris t d) = false := by
    cases hu : uuidParse cid with
    | none => simp [addBuild, hu, succeeded]
    | some cu =>
      cases hpm : parseMetadatas mj with
      | error e => simp [addBuild, hu, hpm, succeeded]
      | ok pmd =>
        have hv := addTryNew_mismatch t d cu ids emb docs uris pmd
          (mismatch_transfer mj pmd ids emb docs uris hpm hmis)
        have hs : succeeded (addTryNew t d cu ids emb docs uris pmd) = false := by
          cases hat : addTryNew t d cu ids emb docs uris pmd with
          | ok r => rw [hat] at hv; simp [isValidationResult] at hv
          | error e => rfl
        simp only [addBuild, hu, hpm]
        exact hs
  have hre := runOp_build_error h (addBuild ids cid emb mj docs uris t d) engA hbuild
  refine ⟨hre.1, hre.2, ?_⟩
  intro hp hu hpm
  have hv := addTryNew_mismatch t d u ids emb docs uris pm
    (mismatch_transfer mj pm ids emb docs uris hpm hmis)
  have hb : addBuild ids cid emb mj docs uris t d = addTryNew t d u ids emb docs uris pm := by
    simp only [addBuild, hu, hpm]
  cases hat : addTryNew t d u ids emb docs uris pm with
  | ok r => rw [hat] at hv; simp [isValidationResult] at hv
  | error e =>
    have hres : add h ids cid emb mj docs uris t d engA = (.error e, false) := by
      show runOp h (addBuild ids cid emb mj docs uris t d) engA = _
      rw [hb, hat]
      simp [runOp, hp]
    rw [hres]
    rw [hat] at hv
    simpa [isValidationResult] using hv

/-- Witness for C1 at a concrete mismatched batch (one id, no embeddings)
with a valid collection id: the call fails with a ValidationError and the
engine is never invoked. -/
theorem add_length_mismatch_rejected_witness :
    (([] : List (List F32)).length ≠ (["a"] : List String).length) ∧
    succeeded (add handle0 ["a"] uuidStr0 [] none none none "t" "d" okEngine).1 = false ∧
    (add handle0 ["a"] uuidStr0 [] none none none "t" "d" okEngine).2 = false ∧
    isValidationResult (add handle0 ["a"] uuidStr0 [] none none none "t" "d" okEngine).1
      = true := by
  have hth := add_length_mismatch_rejected handle0 "t" "d" uuidStr0 ["a"] [] none none
    none okEngine 0 none (Or.inl (by decide))
  exact ⟨by decide, hth.1, hth.2.1, hth.2.2 rfl rfl rfl⟩

/-- A successful dispatch result means healthy locks, a built request, and
an engine success on that request. -/
theorem runOp_ok {ρ α : Type} (h : Handle) (build : Except Err ρ)
    (engine : ρ → Except String α) (v : α)
    (hok : (runOp h build engine).1 = .ok v) :
    h.innerPoisoned = false ∧ h.frontendPoisoned = false ∧
    ∃ req, build = .ok req ∧ engine req = .ok v := by
  cases hp : h.innerPoisoned with
  | true => rw [runOp_inner_poisoned h build engine hp] at hok; cases hok
  | false =>
    cases build with
    | error e => simp [runOp, hp] at hok
    | ok req =>
      cases hf : h.frontendPoisoned with
      | true => simp [runOp, hp, hf] at hok
      | false =>
        cases he : engine req with
        | error msg => simp [runOp, hp, hf, he] at hok
        | ok w =>
          simp [runOp, hp, hf, he] at hok
          subst hok
          exact ⟨rfl, rfl, req, rfl, he⟩

/-- C9 counterexample: when the engine reports 2^31 collections,
`count_collections` returns the wrapped value -2^31 (the `as i32` cast),
which differs from the length of the list `list_collections` returns. -/
theorem count_collections_overflow_cex :
    (count_collections handle0 "t" "d" bigEngine).1 = .ok (-(2 ^ 31 : Int)) ∧
    (list_collections handle0 none none "t" "d" bigEngine).1 = .ok bigList ∧
    ((bigList.length : Int) ≠ -(2 ^ 31 : Int)) := by
  have hlen : bigList.length = 2 ^ 31 := List.length_replicate _ _
  have ht : toI32 (2 ^ 31) = -(2 ^ 31 : Int) := by
    simp only [toI32]
    split <;> omega
  have hrun : runOp handle0 (listCollectionsTryNew "t" "d" none 0) bigEngine
      = (.ok bigList, true) := rfl
  refine ⟨?_, ?_, ?_⟩
  · show ((runOp handle0 (listCollectionsTryNew "t" "d" none 0) bigEngine).1.map
      fun l => toI32 l.length) = Except.ok (-(2 ^ 31 : Int))
    rw [hrun]
    show Except.ok (toI32 bigList.length) = Except.ok (-(2 ^ 31 : Int))
    rw [hlen, ht]
  · show (runOp handle0 (listCollectionsTryNew "t" "d" none 0) bigEngine).1 = .ok bigList
    rw [hrun]
  · rw [hlen]
    norm_num

/-- C9 (amended): `count_collections` issues the same
`ListCollectionsRequest` as `list_collections` with no limit and offset 0,
and when the engine call succeeds it returns the length of the resulting
collection list truncated by the `as i32` cast — exactly the length
whenever the length is below 2^31. -/
theorem count_collections_matches_list_collections (γ : Type) (h : Handle)
    (t d : String) (eng : ListCollectionsRequest → Except String (List γ)) (l : List γ)
    (hok : (list_collections h none none t d eng).1 = .ok l) :
    (count_collections h t d eng).1 = .ok (toI32 l.length) ∧
    (l.length < 2 ^ 31 → (count_collections h t d eng).1 = .ok (l.length : Int)) := by
  have hok' : (runOp h (listCollectionsTryNew t d none 0) eng).1 = .ok l := hok
  obtain ⟨hp, hf, req, hbreq, hereq⟩ :=
    runOp_ok h (listCollectionsTryNew t d none 0) eng l hok'
  have hrun : runOp h (listCollectionsTryNew t d none 0) eng = (.ok l, true) := by
    rw [hbreq]
    simp [runOp, hp, hf, hereq]
  constructor
  · show ((runOp h (listCollectionsTryNew t d none 0) eng).1.map
      fun l => toI32 l.length) = Except.ok (toI32 l.length)
    rw [hrun]
    rfl
  · intro hlen
    show ((runOp h (listCollectionsTryNew t d none 0) eng).1.map
      fun l => toI32 l.length) = Except.ok (l.length : Int)
    rw [hrun]
    show Except.ok (toI32 l.length) = Except.ok (l.length : Int)
    have hti : toI32 l.length = (l.length : Int) := by
      simp only [toI32]
      split <;> omega
    rw [hti]

/-- Witness for C9 at a concrete two-collection engine: both operations
agree and the count equals the exact length. -/
theorem count_collections_matches_list_collections_witness :
    (list_collections handle0 none none "t" "d" listEngine2).1 = .ok [(), ()] ∧
    (count_collections handle0 "t" "d" listEngine2).1
      = .ok (toI32 ([(), ()] : List Unit).length) ∧
    ([(), ()] : List Unit).length < 2 ^ 31 ∧
    (count_collections handle0 "t" "d" listEngine2).1
      = .ok ((([(), ()] : List Unit).length : Int)) := by
  have hth := count_collections_matches_list_collections Unit handle0 "t" "d"
    listEngine2 [(), ()] rfl
  exact ⟨rfl, hth.1, by decide, hth.2 (by decide)⟩

end Chromex
